import Mathlib

/-!
Verification development for the FraudGuard AI hybrid fraud-scoring engine
(`src/fraud_model.py`, `src/config.py`, `src/api_server.py`).

The embedding is generic over a linear ordered field `α` standing for the
Python floating-point numbers; the transcendental primitives used by the
pipeline (`np.exp` in the logistic squash of `FraudDetector.predict`,
`np.log1p` in `preprocess_data`) are passed in as a `Prims` bundle, since
control-flow claims hold for every interpretation of those functions.
Theorems about the numeric fusion formulas themselves are stated over `ℝ`
with `Real.exp`.
-/

set_option maxRecDepth 4000
set_option linter.unnecessarySeqFocus false

namespace FraudGuard

/-- The transcendental primitives of the pipeline: `exp` interprets `np.exp`
(line 241 of `fraud_model.py`) and `log1p` interprets `np.log1p`
(line 51 of `fraud_model.py`). -/
structure Prims (α : Type) where
  exp : α → α
  log1p : α → α

/-- Python-level failures the pipeline can raise: `pandas`/`dict` key errors,
`sklearn` unseen-label `ValueError` from `LabelEncoder.transform`,
`sklearn` `NotFittedError`, shape-mismatch `ValueError` from
`StandardScaler.transform`, and `ZeroDivisionError`. -/
inductive PyErr where
  | keyError (key : String)
  | typeError (key : String)
  | unseenLabel (feature value : String)
  | notFitted (what : String)
  | shapeMismatch
  | zeroDivision
  deriving DecidableEq, Repr

/-- A cell of a transaction record / dataframe column: a numeric value, a
string (categorical) value, or a timestamp.  The payload of a timestamp is
never read by the model (the `timestamp` column is converted in place by
`pd.to_datetime` on line 46 of `fraud_model.py` but is not among the model
features), so it carries no data here. -/
inductive Val (α : Type) where
  | num (x : α)
  | str (s : String)
  | time
  deriving DecidableEq, Repr

/-- A transaction record: a flat mapping of named attributes
(spec §3 "Transaction record"), as passed to `FraudDetector.predict`. -/
abbrev Txn (α : Type) : Type := List (String × Val α)

/-- First-match association-list lookup, the access discipline of both the
Python `dict` and the one-row dataframe columns. -/
def assocFind {β : Type} (key : String) : List (String × β) → Option β
  | [] => none
  | (k, v) :: rest => if key = k then some v else assocFind key rest

/-- Source `src/config.py` line 97: the categorical features. -/
def CATEGORICAL_FEATURES : List String :=
  ["merchant_category", "device_type", "payment_method"]

section Thresholds

variable {α : Type} [LinearOrderedField α]

/-- Source `src/config.py` line 54: `FRAUD_THRESHOLD_HIGH = 0.8`. -/
def FRAUD_THRESHOLD_HIGH : α := 8 / 10

/-- Source `src/config.py` line 55: `FRAUD_THRESHOLD_MEDIUM = 0.5`. -/
def FRAUD_THRESHOLD_MEDIUM : α := 5 / 10

/-- Source `src/config.py` line 56: `FRAUD_THRESHOLD_LOW = 0.2`. -/
def FRAUD_THRESHOLD_LOW : α := 2 / 10

end Thresholds

/-- Fitted `sklearn.preprocessing.LabelEncoder` state: the sorted list of
distinct classes seen at fit time (`encoder.classes_`). -/
structure LabelEncoderState where
  classes : List String
  deriving DecidableEq, Repr

/-- Insert a value into a sorted duplicate-free list of strings, keeping it
sorted and duplicate-free (the way `np.unique` builds `classes_`). -/
def insertUnique (v : String) : List String → List String
  | [] => [v]
  | x :: xs =>
    if v = x then x :: xs
    else if v < x then v :: x :: xs
    else x :: insertUnique v xs

/-- Source `LabelEncoder.fit`: `classes_` is the sorted set of distinct values. -/
def encoderFit (vs : List String) : LabelEncoderState :=
  ⟨vs.foldl (fun acc v => insertUnique v acc) []⟩

/-- Source `LabelEncoder.transform` on a single value: the index of the value in
`classes_`, raising a `ValueError` ("y contains previously unseen labels")
when the value was not seen at fit time. -/
def encoderTransform (feature : String) (e : LabelEncoderState) (v : String) :
    Except PyErr Nat :=
  if v ∈ e.classes then .ok (e.classes.indexOf v)
  else .error (.unseenLabel feature v)

/-- Fitted `sklearn.preprocessing.StandardScaler` state: per-feature mean and
scale. -/
structure ScalerState (α : Type) where
  mean : List α
  scale : List α
  deriving DecidableEq, Repr

/-- The arithmetic of `StandardScaler.transform`: `(x - mean) / scale`,
feature-wise. -/
def scalerApply {α : Type} [LinearOrderedField α] (sc : ScalerState α)
    (x : List α) : List α :=
  List.zipWith (fun xi p => (xi - p.1) / p.2) x (sc.mean.zip sc.scale)

/-- Source `StandardScaler.transform` on a single row, including sklearn's input
validation: a row whose width differs from the fitted feature count raises a
shape-mismatch `ValueError`. -/
def scalerTransform {α : Type} [LinearOrderedField α] (sc : ScalerState α)
    (x : List α) : Except PyErr (List α) :=
  if x.length = sc.mean.length then .ok (scalerApply sc x)
  else .error .shapeMismatch

/-- The label-encoder table `self.label_encoders` of `FraudDetector`:
one fitted encoder per categorical feature name. -/
abbrev Encoders : Type := List (String × LabelEncoderState)

section Pipeline

variable {α : Type} [LinearOrderedField α]

/-- Numeric cell of a record/column, `none` for non-numeric cells. -/
def Val.num? : Val α → Option α
  | .num x => some x
  | _ => none

/-- Source `data[feature].astype(str)` on a single cell: categorical cells are
strings already; other cells stringify (their exact rendering is never
compared against a fitted class, so a fixed tag suffices). -/
def Val.asStr : Val α → String
  | .str s => s
  | .num _ => "<num>"
  | .time => "<time>"

/-- Read a numeric column of the one-row frame: a missing column raises
`KeyError`, a non-numeric one fails pandas arithmetic. -/
def getNum (t : Txn α) (key : String) : Except PyErr α :=
  match assocFind key t with
  | none => .error (.keyError key)
  | some v =>
    match v.num? with
    | some x => .ok x
    | none => .error (.typeError key)

/-- Source `fraud_model.py` lines 45-54: the temporal and engineered derived
columns, in source order.  Each `data[...]` read raises `KeyError` when the
column is absent.  Returns the added columns. -/
def derivedColumns (P : Prims α) (t : Txn α) :
    Except PyErr (List (String × Val α)) := do
  match assocFind "timestamp" t with
  | none => throw (.keyError "timestamp")
  | some _ => pure ()
  let dow ← getNum t "day_of_week"
  let isWeekend : α := if dow = 5 ∨ dow = 6 then 1 else 0
  let hour ← getNum t "hour"
  let isNight : α :=
    if hour = 0 ∨ hour = 1 ∨ hour = 2 ∨ hour = 3 ∨ hour = 4 ∨ hour = 5
    then 1 else 0
  let amount ← getNum t "amount"
  let amountLog := P.log1p amount
  let vel ← getNum t "velocity_1h"
  let avg30 ← getNum t "avg_amount_30d"
  let velocityRisk := vel / (avg30 + 1)
  let std30 ← getNum t "std_amount_30d"
  let amountDeviation := |amount - avg30| / (std30 + 1)
  let geo ← getNum t "geographic_risk"
  let dev ← getNum t "device_risk"
  let totalRisk := geo + dev
  pure [("is_weekend", .num isWeekend), ("is_night", .num isNight),
        ("amount_log", .num amountLog), ("velocity_risk", .num velocityRisk),
        ("amount_deviation", .num amountDeviation),
        ("total_risk_score", .num totalRisk)]

/-- One step of the categorical-encoding loop (`fraud_model.py` lines 57-63)
for one feature name.  The accumulator carries the current encoder table, the
encoded columns produced so far, and the first raised error if any; a raised
error aborts the loop but — as in Python — keeps every mutation already made
to `self.label_encoders`. -/
def encodeStep (t : Txn α)
    (acc : Encoders × List (String × Val α) × Option PyErr) (feature : String) :
    Encoders × List (String × Val α) × Option PyErr :=
  match acc.2.2 with
  | some _ => acc
  | none =>
    match assocFind feature t with
    | none => acc
    | some v =>
      let s := v.asStr
      match assocFind feature acc.1 with
      | none =>
        let e := encoderFit [s]
        (acc.1 ++ [(feature, e)],
         acc.2.1 ++ [(feature ++ "_encoded", .num ((e.classes.indexOf s : ℕ) : α))],
         none)
      | some e =>
        match encoderTransform feature e s with
        | .ok code =>
          (acc.1, acc.2.1 ++ [(feature ++ "_encoded", .num ((code : ℕ) : α))], none)
        | .error err => (acc.1, acc.2.1, some err)

/-- The categorical-encoding loop over a list of feature names. -/
def encodeCatsAux (encs : Encoders) (t : Txn α) (features : List String) :
    Encoders × List (String × Val α) × Option PyErr :=
  features.foldl (encodeStep t) (encs, [], none)

/-- Source `fraud_model.py` lines 57-63: encode each categorical feature present in
the record, fitting a fresh encoder on the serve data when
`self.label_encoders` has none for that feature. -/
def encodeCats (encs : Encoders) (t : Txn α) :
    Encoders × List (String × Val α) × Option PyErr :=
  encodeCatsAux encs t CATEGORICAL_FEATURES

/-- Source `fraud_model.py` lines 66-74: the fixed base feature list. -/
def featureColumns : List String :=
  ["amount", "amount_log", "hour", "day_of_week", "month",
   "user_age", "account_age_days", "transaction_count_day",
   "amount_last_hour", "amount_last_day", "velocity_1h",
   "avg_amount_30d", "std_amount_30d", "geographic_risk",
   "device_risk", "time_since_last_transaction",
   "is_weekend", "is_night", "velocity_risk",
   "amount_deviation", "total_risk_score"]

/-- Source `fraud_model.py` lines 76-84: append the encoded column names that
exist, keep only the columns that exist, and read off the numeric row. -/
def selectFeatures (extended : List (String × Val α)) : List α :=
  let candidates :=
    featureColumns ++
      (CATEGORICAL_FEATURES.map (fun f => f ++ "_encoded")).filter
        (fun c => (assocFind c extended).isSome)
  let available := candidates.filter (fun c => (assocFind c extended).isSome)
  available.filterMap (fun c => (assocFind c extended).bind Val.num?)

/-- Source `FraudDetector.preprocess_data` (lines 38-89) on a one-row frame:
derive the temporal/engineered columns, encode the categorical columns
(possibly fitting and thereby mutating `self.label_encoders`), select the
final feature row.  Returns the feature row (or the raised error) together
with the final encoder table. -/
def preprocess (P : Prims α) (encs : Encoders) (t : Txn α) :
    Except PyErr (List α) × Encoders :=
  match derivedColumns P t with
  | .error e => (.error e, encs)
  | .ok derived =>
    match encodeCats encs t with
    | (encs2, _, some err) => (.error err, encs2)
    | (encs2, encCols, none) =>
      (.ok (selectFeatures (derived ++ encCols ++ t)), encs2)

end Pipeline

section Scoring

variable {α : Type} [LinearOrderedField α]

/-- Source `fraud_model.py` line 241: the logistic squash
`isolation_proba = 1 / (1 + np.exp(-isolation_score))`, with the exponential
passed in as `e`. -/
def sigmoidWith (e : α → α) (s : α) : α := 1 / (1 + e (-s))

/-- Source `fraud_model.py` lines 240-244, the serve-time score fusion:
`fraud_score = (xgb_proba + isolation_proba) / 2` where `isolation_proba` is
the logistic squash of the raw isolation score. -/
def fuseScores (e : α → α) (p s : α) : α := (p + sigmoidWith e s) / 2

/-- Source `fraud_model.py` lines 246-258: the threshold-to-decision mapping of
`predict`, returning the `(risk_level, action)` pair. -/
def classifyScore (s : α) : String × String :=
  if s ≥ FRAUD_THRESHOLD_HIGH then ("HIGH", "BLOCK")
  else if s ≥ FRAUD_THRESHOLD_MEDIUM then ("MEDIUM", "ALERT")
  else if s ≥ FRAUD_THRESHOLD_LOW then ("LOW", "MONITOR")
  else ("MINIMAL", "APPROVE")

/-- Source `fraud_model.py` line 266: the binary flag `fraud_score > 0.5`. -/
def isFraudFlag (s : α) : Bool := decide (s > 5 / 10)

/-- The dictionary returned by `FraudDetector.predict`
(lines 260-267 of `fraud_model.py`). -/
structure PredResult (α : Type) where
  fraud_score : α
  xgb_score : α
  isolation_score : α
  risk_level : String
  action : String
  is_fraud_predicted : Bool
  deriving DecidableEq, Repr

/-- Assemble the result dictionary of `predict` from the raw classifier
probability `p` and the raw isolation decision score `s`
(lines 240-267 of `fraud_model.py`). -/
def scoreToResult (P : Prims α) (p s : α) : PredResult α :=
  let fraud := fuseScores P.exp p s
  { fraud_score := fraud
    xgb_score := p
    isolation_score := sigmoidWith P.exp s
    risk_level := (classifyScore fraud).1
    action := (classifyScore fraud).2
    is_fraud_predicted := isFraudFlag fraud }

/-- The `FraudDetector` object (`fraud_model.py` lines 20-36): the two
learners and the scaler are `none` while unfitted — applying an unfitted
sklearn estimator raises `NotFittedError`.  A fitted learner is its scoring
map on a scaled feature row (`predict_proba[:, 1]` for XGBoost,
`decision_function` for the isolation forest). -/
structure Detector (α : Type) where
  xgb_model : Option (List α → α)
  isolation_forest : Option (List α → α)
  scaler : Option (ScalerState α)
  label_encoders : Encoders
  performance_metrics : List (String × α)
  feature_importance : List (String × α)

/-- Source `FraudDetector.__init__`: unfitted learners, unfitted scaler, empty
encoder table, empty metrics. -/
def mkFraudDetector : Detector α :=
  { xgb_model := none
    isolation_forest := none
    scaler := none
    label_encoders := []
    performance_metrics := []
    feature_importance := [] }

/-- Source `FraudDetector.predict` (lines 223-267): preprocess the record (which may
mutate `self.label_encoders`), scale, score with both learners, fuse and
classify.  Returns the result (or the raised error) together with the
detector as predict leaves it. -/
def predict (P : Prims α) (d : Detector α) (t : Txn α) :
    Except PyErr (PredResult α) × Detector α :=
  match preprocess P d.label_encoders t with
  | (.error e, encs) => (.error e, { d with label_encoders := encs })
  | (.ok X, encs) =>
    match d.scaler with
    | none => (.error (.notFitted "StandardScaler"), { d with label_encoders := encs })
    | some sc =>
      match scalerTransform sc X with
      | .error e => (.error e, { d with label_encoders := encs })
      | .ok Xs =>
        match d.xgb_model with
        | none => (.error (.notFitted "XGBClassifier"), { d with label_encoders := encs })
        | some xgb =>
          match d.isolation_forest with
          | none => (.error (.notFitted "IsolationForest"), { d with label_encoders := encs })
          | some iso =>
            (.ok (scoreToResult P (xgb Xs) (iso Xs)), { d with label_encoders := encs })

end Scoring

section Evaluation

variable {α : Type} [LinearOrderedField α]

/-- Source `fraud_model.py` line 157, the training-evaluation squash: min-max
normalization of a raw isolation decision score `s` against the minimum `lo`
and maximum `hi` of the evaluation batch,
`isolation_proba = (pred - pred.min()) / (pred.max() - pred.min())`. -/
def evalIsolationProba (lo hi s : α) : α := (s - lo) / (hi - lo)

/-- Source `fraud_model.py` line 161, the training-evaluation fusion:
`hybrid_proba = (xgb_proba + (1 - isolation_proba)) / 2`. -/
def evalHybridProba (lo hi p s : α) : α :=
  (p + (1 - evalIsolationProba lo hi s)) / 2

end Evaluation

section Training

variable {α : Type} [LinearOrderedField α]

/-- Source `SMOTE(random_state=42).fit_resample` (lines 124-125 of
`fraud_model.py`): appends synthetic minority-class rows until the two
classes have equal counts.  The feature values of the synthetic rows are
nearest-neighbour interpolations driven by SMOTE's seeded PRNG; they are
abstracted here as a generator `gen`, since no claim depends on them. -/
def smoteResample (gen : ℕ → List α) (X : List (List α)) (y : List Bool) :
    List (List α) × List Bool :=
  let t := y.count true
  let f := y.count false
  if t < f then
    (X ++ (List.range (f - t)).map gen, y ++ List.replicate (f - t) true)
  else if f < t then
    (X ++ (List.range (t - f)).map gen, y ++ List.replicate (t - f) false)
  else (X, y)

/-- What each fitting / evaluation stage of `FraudDetector.train` receives:
the scaled rows the isolation forest is fitted on, the resampled rows and
labels the XGBoost classifier is fitted on, and the scaled rows, labels and
isolation scores passed to `_evaluate_models`. -/
structure TrainTrace (α : Type) where
  isoFitRows : List (List α)
  xgbFitRows : List (List α)
  xgbFitLabels : List Bool
  evalRows : List (List α)
  evalLabels : List Bool
  evalIsoScores : List α

/-- The dataflow of `FraudDetector.train` after the `train_test_split` line
(lines 100-143 of `fraud_model.py`), starting from the split
`(Xtr, ytr) / (Xte, yte)`: fit the scaler on the training rows and scale both
splits, fit the isolation forest on the scaled training rows and score the
scaled test rows, SMOTE-resample the scaled training split only, fit XGBoost
on the resampled data, and hand the scaled test split with its original
labels to `_evaluate_models`.  The scaler fit (whose scale is a square root,
not representable in every field) and the isolation-forest fit are abstracted
as the oracles `fitScaler` and `fitIso`; `gen` generates SMOTE's synthetic
rows. -/
def trainCore (fitScaler : List (List α) → ScalerState α)
    (fitIso : List (List α) → (List α → α)) (gen : ℕ → List α)
    (Xtr Xte : List (List α)) (ytr yte : List Bool) : TrainTrace α :=
  let sc := fitScaler Xtr
  let XtrS := Xtr.map (scalerApply sc)
  let XteS := Xte.map (scalerApply sc)
  let iso := fitIso XtrS
  let (Xbal, ybal) := smoteResample gen XtrS ytr
  { isoFitRows := XtrS
    xgbFitRows := Xbal
    xgbFitLabels := ybal
    evalRows := XteS
    evalLabels := yte
    evalIsoScores := XteS.map iso }

end Training

section Persistence

variable {α : Type} [LinearOrderedField α]

/-- One value of the `model_data` dictionary built by
`FraudDetector.save_model` (lines 271-278 of `fraud_model.py`). -/
inductive SavedField (α : Type) where
  | learner (f : Option (List α → α))
  | scalerState (s : Option (ScalerState α))
  | encoderTable (e : Encoders)
  | metricTable (m : List (String × α))

/-- The serialized artifact: the keyed dictionary `joblib.dump` persists as
one blob. -/
abbrev ModelData (α : Type) : Type := List (String × SavedField α)

/-- Source `FraudDetector.save_model`: the `model_data` dictionary with its six
keys, in source order (lines 271-278). -/
def save_model (d : Detector α) : ModelData α :=
  [("xgb_model", .learner d.xgb_model),
   ("isolation_forest", .learner d.isolation_forest),
   ("scaler", .scalerState d.scaler),
   ("label_encoders", .encoderTable d.label_encoders),
   ("performance_metrics", .metricTable d.performance_metrics),
   ("feature_importance", .metricTable d.feature_importance)]

/-- Source `FraudDetector.load_model` (lines 283-299): read each of the six keys
out of the loaded dictionary and assign it to the corresponding attribute;
any missing key or ill-typed field raises, which `load_model` catches and
turns into `False` (modelled as `none`). -/
def load_model (d : Detector α) (m : ModelData α) : Option (Detector α) := do
  let .learner xgb ← assocFind "xgb_model" m | none
  let .learner iso ← assocFind "isolation_forest" m | none
  let .scalerState sc ← assocFind "scaler" m | none
  let .encoderTable encs ← assocFind "label_encoders" m | none
  let .metricTable pm ← assocFind "performance_metrics" m | none
  let .metricTable fi ← assocFind "feature_importance" m | none
  some { d with
          xgb_model := xgb
          isolation_forest := iso
          scaler := sc
          label_encoders := encs
          performance_metrics := pm
          feature_importance := fi }

end Persistence

section Api

variable {α : Type} [LinearOrderedField α]

/-- Source `api_server.py` lines 174-175 and 222-223: the serving layer copies the
request into a dict and injects `transaction_dict['timestamp'] =
datetime.now()` before calling `FraudDetector.predict`. -/
def stampTimestamp (t : Txn α) : Txn α := ("timestamp", Val.time) :: t

/-- The per-transaction dictionary collected by the `/batch-predict`
endpoint (lines 227-233 of `api_server.py`): the subset of prediction fields
it returns. -/
structure BatchItem (α : Type) where
  fraud_score : α
  risk_level : String
  action : String
  is_fraud_predicted : Bool
  deriving DecidableEq, Repr

/-- Project a `predict` result onto the fields `/batch-predict` returns. -/
def toBatchItem (r : PredResult α) : BatchItem α :=
  { fraud_score := r.fraud_score
    risk_level := r.risk_level
    action := r.action
    is_fraud_predicted := r.is_fraud_predicted }

/-- The loop of `batch_predict` (lines 221-234 of `api_server.py`): call
`fraud_detector.predict` once per transaction in order on the shared
detector; the first raised error aborts the whole batch (the endpoint turns
it into HTTP 500). -/
def batchLoop (P : Prims α) (d : Detector α) :
    List (Txn α) → Except PyErr (List (BatchItem α)) × Detector α
  | [] => (.ok [], d)
  | t :: rest =>
    match predict P d (stampTimestamp t) with
    | (.error e, d2) => (.error e, d2)
    | (.ok r, d2) =>
      match batchLoop P d2 rest with
      | (.error e, d3) => (.error e, d3)
      | (.ok items, d3) => (.ok (toBatchItem r :: items), d3)

/-- The `/batch-predict` endpoint (lines 210-251 of `api_server.py`): run the
prediction loop, then build the response — whose
`avg_time_per_transaction_ms` field divides by `len(transactions)`, raising
`ZeroDivisionError` when the batch is empty. -/
def batch_predict (P : Prims α) (d : Detector α) (txns : List (Txn α)) :
    Except PyErr (List (BatchItem α)) × Detector α :=
  match batchLoop P d txns with
  | (.error e, d2) => (.error e, d2)
  | (.ok items, d2) =>
    if txns.length = 0 then (.error .zeroDivision, d2)
    else (.ok items, d2)

end Api

section Fixtures

/-- Discriminate `Except` results without naming the payload. -/
def exceptOk {ε β : Type} : Except ε β → Bool
  | .ok _ => true
  | .error _ => false

/-- A concrete interpretation of the transcendental primitives over `ℚ`,
used to evaluate the pipeline on concrete inputs (the control-flow theorems
hold for every interpretation). -/
def P0 : Prims ℚ := ⟨fun x => x, fun x => x⟩

/-- A fully populated transaction record with every feature of the schema. -/
def baseTxn : Txn ℚ :=
  [("timestamp", .time), ("day_of_week", .num 2), ("hour", .num 14),
   ("amount", .num 100), ("velocity_1h", .num 1), ("avg_amount_30d", .num 120),
   ("std_amount_30d", .num 30), ("geographic_risk", .num (5 / 100)),
   ("device_risk", .num (5 / 100)), ("month", .num 6), ("user_age", .num 40),
   ("account_age_days", .num 800), ("transaction_count_day", .num 2),
   ("amount_last_hour", .num 0), ("amount_last_day", .num 50),
   ("time_since_last_transaction", .num 120),
   ("merchant_category", .str "grocery"), ("device_type", .str "mobile"),
   ("payment_method", .str "card_chip")]

/-- An encoder table as a training run on records like `baseTxn` leaves it:
one fitted encoder per categorical feature. -/
def fittedEncoders : Encoders :=
  [("merchant_category", ⟨["grocery", "online"]⟩),
   ("device_type", ⟨["desktop", "mobile"]⟩),
   ("payment_method", ⟨["card_chip", "online"]⟩)]

/-- A concrete fitted detector: both learners fitted (as constant scoring
maps), scaler fitted for the 24-feature row the pipeline produces on records
like `baseTxn`, encoders fitted. -/
def fittedDetector : Detector ℚ :=
  { xgb_model := some (fun _ => 1)
    isolation_forest := some (fun _ => 0)
    scaler := some ⟨List.replicate 24 0, List.replicate 24 1⟩
    label_encoders := fittedEncoders
    performance_metrics := []
    feature_importance := [] }

end Fixtures

/-- C1: the discrete decision returned by `predict` is determined from
`fraud_score` by an exclusive, exhaustive, inclusive-low partition —
`fraud_score ≥ 0.8` yields HIGH/BLOCK, `0.5 ≤ fraud_score < 0.8` yields
MEDIUM/ALERT, `0.2 ≤ fraud_score < 0.5` yields LOW/MONITOR,
`fraud_score < 0.2` yields MINIMAL/APPROVE, and `is_fraud_predicted` holds
exactly when `fraud_score > 0.5`; moreover every result `predict` returns
carries exactly `classifyScore`/`isFraudFlag` of its own `fraud_score`. -/
theorem predict_threshold_partition :
    (∀ s : ℚ,
      (classifyScore s = ("HIGH", "BLOCK") ↔ 8 / 10 ≤ s) ∧
      (classifyScore s = ("MEDIUM", "ALERT") ↔ 5 / 10 ≤ s ∧ s < 8 / 10) ∧
      (classifyScore s = ("LOW", "MONITOR") ↔ 2 / 10 ≤ s ∧ s < 5 / 10) ∧
      (classifyScore s = ("MINIMAL", "APPROVE") ↔ s < 2 / 10) ∧
      (isFraudFlag s = true ↔ 5 / 10 < s)) ∧
    (∀ (P : Prims ℚ) (d : Detector ℚ) (t : Txn ℚ),
      (predict P d t).1.map (fun r => (r.risk_level, r.action)) =
        (predict P d t).1.map (fun r => classifyScore r.fraud_score) ∧
      (predict P d t).1.map (fun r => r.is_fraud_predicted) =
        (predict P d t).1.map (fun r => isFraudFlag r.fraud_score)) := by
  constructor
  · intro s
    unfold classifyScore isFraudFlag FRAUD_THRESHOLD_HIGH FRAUD_THRESHOLD_MEDIUM
      FRAUD_THRESHOLD_LOW
    split_ifs with h1 h2 h3 <;>
      refine ⟨?_, ?_, ?_, ?_, ?_⟩ <;> simp_all <;>
        first
          | linarith
          | (intro h; linarith)
  · intro P d t
    rcases hp : preprocess P d.label_encoders t with ⟨res, encs⟩
    rcases res with e | X <;> simp only [predict, hp]
    · exact ⟨rfl, rfl⟩
    · rcases hsc : d.scaler with _ | sc <;> simp only [hsc]
      · exact ⟨rfl, rfl⟩
      · rcases hs : scalerTransform sc X with e | Xs <;> simp only [hs]
        · exact ⟨rfl, rfl⟩
        · rcases hx : d.xgb_model with _ | xgb <;> simp only [hx]
          · exact ⟨rfl, rfl⟩
          · rcases hi : d.isolation_forest with _ | iso <;> simp only [hi]
            · exact ⟨rfl, rfl⟩
            · exact ⟨rfl, rfl⟩

/-- C2: `predict`'s `fraud_score` is the unweighted average of the
classifier probability and the logistic-squashed anomaly score; the squashed
component lies in `[0, 1]`, and for a classifier probability in `[0, 1]` the
fused score lies in `[0, 1]` as well. -/
theorem fraud_score_unweighted_average (p s : ℝ) (hp0 : 0 ≤ p) (hp1 : p ≤ 1) :
    (∀ P : Prims ℝ, (scoreToResult P p s).fraud_score =
      ((scoreToResult P p s).xgb_score + (scoreToResult P p s).isolation_score) / 2) ∧
    fuseScores Real.exp p s = (p + sigmoidWith Real.exp s) / 2 ∧
    0 ≤ sigmoidWith Real.exp s ∧ sigmoidWith Real.exp s ≤ 1 ∧
    0 ≤ fuseScores Real.exp p s ∧ fuseScores Real.exp p s ≤ 1 := by
  have hexp : (0 : ℝ) < Real.exp (-s) := Real.exp_pos _
  have hden : (0 : ℝ) < 1 + Real.exp (-s) := by linarith
  have hsig0 : 0 ≤ sigmoidWith Real.exp s := by
    unfold sigmoidWith
    positivity
  have hsig1 : sigmoidWith Real.exp s ≤ 1 := by
    unfold sigmoidWith
    rw [div_le_one hden]
    linarith
  refine ⟨fun P => rfl, rfl, hsig0, hsig1, ?_, ?_⟩ <;>
    · unfold fuseScores
      linarith

/-- C2 witness: the theorem instantiated at `p = 0`, `s = 0`. -/
theorem fraud_score_unweighted_average_witness :
    (0 : ℝ) ≤ 0 ∧ (0 : ℝ) ≤ 1 ∧
    (0 ≤ fuseScores Real.exp (0 : ℝ) 0 ∧ fuseScores Real.exp (0 : ℝ) 0 ≤ 1) := by
  have h := fraud_score_unweighted_average 0 0 le_rfl (by norm_num)
  exact ⟨le_rfl, by norm_num, h.2.2.2.2⟩

/-- C4 counterexample: at classifier probability `0` and raw isolation score
`0` (with evaluation-batch minimum `0` and maximum `1`), the hybrid score
computed by `_evaluate_models` is `1/2` while `predict`'s fraud score is
`1/4`: the training-evaluation squash and the serving squash are not the
same transformation. -/
theorem eval_serve_transform_differ_cex :
    evalHybridProba (0 : ℝ) 1 0 0 ≠ fuseScores Real.exp 0 0 := by
  have h : fuseScores Real.exp (0 : ℝ) 0 = 1 / 4 := by
    unfold fuseScores sigmoidWith
    rw [neg_zero, Real.exp_zero]
    norm_num
  rw [h]
  unfold evalHybridProba evalIsolationProba
  norm_num

/-- C4 amended: the training-evaluation pipeline squashes the raw isolation
score by inverted min-max normalization over the evaluation batch, while
`predict` squashes it by the logistic transform; the two transformations are
different, so for the same raw classifier probability and isolation score the
evaluation-time hybrid score and the serve-time fraud score can differ. -/
theorem eval_serve_transform_differ :
    ∃ lo hi p s : ℝ, evalHybridProba lo hi p s ≠ fuseScores Real.exp p s := by
  refine ⟨0, 1, 0, 0, ?_⟩
  have h : fuseScores Real.exp (0 : ℝ) 0 = 1 / 4 := by
    unfold fuseScores sigmoidWith
    rw [neg_zero, Real.exp_zero]
    norm_num
  rw [h]
  unfold evalHybridProba evalIsolationProba
  norm_num

/-- Helper: one encoding step never changes the encoder table of a feature
that is either absent from the record or already fitted. -/
theorem encodeStep_preserves_encoders {α : Type} [LinearOrderedField α]
    (t : Txn α) (f : String) (encs : Encoders) (cols : List (String × Val α))
    (e? : Option PyErr) (hcov : (assocFind f t).isSome → (assocFind f encs).isSome) :
    ∃ cols2 e2, encodeStep t (encs, cols, e?) f = (encs, cols2, e2) := by
  unfold encodeStep
  cases e? with
  | some e => exact ⟨cols, some e, rfl⟩
  | none =>
    cases hft : assocFind f t with
    | none => simp only [hft]; exact ⟨cols, none, rfl⟩
    | some v =>
      simp only [hft]
      have hs : (assocFind f encs).isSome := hcov (by simp [hft])
      cases hfe : assocFind f encs with
      | none => rw [hfe] at hs; simp at hs
      | some e =>
        simp only [hfe]
        cases htr : encoderTransform f e v.asStr with
        | ok code => simp only [htr]; exact ⟨_, _, rfl⟩
        | error err => simp only [htr]; exact ⟨_, _, rfl⟩

/-- Helper: the encoding loop leaves the encoder table unchanged when every
categorical feature present in the record already has a fitted encoder. -/
theorem foldl_encodeStep_fst {α : Type} [LinearOrderedField α] (t : Txn α)
    (fs : List String) (encs : Encoders) :
    ∀ (cols : List (String × Val α)) (e? : Option PyErr),
      (∀ f ∈ fs, (assocFind f t).isSome → (assocFind f encs).isSome) →
      (fs.foldl (encodeStep t) (encs, cols, e?)).1 = encs := by
  induction fs with
  | nil => intro cols e? _; rfl
  | cons f rest ih =>
    intro cols e? h
    obtain ⟨cols2, e2, heq⟩ :=
      encodeStep_preserves_encoders t f encs cols e? (h f (by simp))
    rw [List.foldl_cons, heq]
    exact ih cols2 e2 (fun g hg => h g (by simp [hg]))

/-- Helper: `encodeCats` under full encoder coverage. -/
theorem encodeCats_fst_of_covered {α : Type} [LinearOrderedField α]
    (encs : Encoders) (t : Txn α)
    (h : ∀ f ∈ CATEGORICAL_FEATURES,
      (assocFind f t).isSome → (assocFind f encs).isSome) :
    (encodeCats encs t).1 = encs :=
  foldl_encodeStep_fst t CATEGORICAL_FEATURES encs [] none h

/-- Helper: `preprocess_data` under full encoder coverage returns the encoder
table it was given. -/
theorem preprocess_snd_of_covered {α : Type} [LinearOrderedField α]
    (P : Prims α) (encs : Encoders) (t : Txn α)
    (h : ∀ f ∈ CATEGORICAL_FEATURES,
      (assocFind f t).isSome → (assocFind f encs).isSome) :
    (preprocess P encs t).2 = encs := by
  unfold preprocess
  cases hdc : derivedColumns P t with
  | error e => rfl
  | ok derived =>
    have h1 := encodeCats_fst_of_covered encs t h
    rcases hec : encodeCats encs t with ⟨encs2, cols, e?⟩
    rw [hec] at h1
    cases e? <;> simp only [hec] <;> exact h1

/-- Helper: `predict` returns the detector with only `label_encoders`
replaced by what preprocessing left there. -/
theorem predict_snd {α : Type} [LinearOrderedField α]
    (P : Prims α) (d : Detector α) (t : Txn α) :
    (predict P d t).2 =
      { d with label_encoders := (preprocess P d.label_encoders t).2 } := by
  rcases hp : preprocess P d.label_encoders t with ⟨res, encs⟩
  rcases res with e | X <;> simp only [predict, hp] <;> (repeat' split) <;> rfl

/-- C3 counterexample: on a fully fitted detector, a record whose
`merchant_category` value `"travel"` was never seen during training makes
`predict` raise the encoder's unseen-label `ValueError` instead of encoding
it to an out-of-vocabulary code and returning a result. -/
theorem unseen_category_raises_cex :
    (predict P0 fittedDetector
      (("merchant_category", Val.str "travel") :: baseTxn)).1 =
      Except.error (PyErr.unseenLabel "merchant_category" "travel") := by rfl

/-- C3 amended: a categorical value not among an encoder's fitted classes
makes `LabelEncoder.transform` fail with an unseen-label error — there is no
out-of-vocabulary fallback — and `predict` propagates that failure (as the
counterexample shows) instead of producing a prediction. -/
theorem encoder_transform_unseen_error (feature v : String)
    (e : LabelEncoderState) (h : v ∉ e.classes) :
    encoderTransform feature e v = Except.error (PyErr.unseenLabel feature v) := by
  unfold encoderTransform
  simp [h]

/-- C3 amended witness: the unseen value `"travel"` against an encoder
fitted on `["grocery", "online"]`. -/
theorem encoder_transform_unseen_error_witness :
    "travel" ∉ (⟨["grocery", "online"]⟩ : LabelEncoderState).classes ∧
    encoderTransform "merchant_category" ⟨["grocery", "online"]⟩ "travel" =
      Except.error (PyErr.unseenLabel "merchant_category" "travel") :=
  ⟨by decide, encoder_transform_unseen_error _ _ _ (by decide)⟩

/-- C5: synthetic minority oversampling happens after the train/test split
and only on the training split — the classifier is fitted on exactly the
SMOTE-resampled scaled training data (balanced to equal class counts when
fraud is the minority), while the evaluation split handed to
`_evaluate_models` keeps its original labels and row count, with no
synthetic rows. -/
theorem train_smote_only_training_split {α : Type} [LinearOrderedField α]
    (fitScaler : List (List α) → ScalerState α)
    (fitIso : List (List α) → (List α → α)) (gen : ℕ → List α)
    (Xtr Xte : List (List α)) (ytr yte : List Bool)
    (h : ytr.count true ≤ ytr.count false) :
    (trainCore fitScaler fitIso gen Xtr Xte ytr yte).evalLabels = yte ∧
    (trainCore fitScaler fitIso gen Xtr Xte ytr yte).evalRows.length = Xte.length ∧
    (trainCore fitScaler fitIso gen Xtr Xte ytr yte).xgbFitRows =
      (smoteResample gen (Xtr.map (scalerApply (fitScaler Xtr))) ytr).1 ∧
    (trainCore fitScaler fitIso gen Xtr Xte ytr yte).xgbFitLabels =
      (smoteResample gen (Xtr.map (scalerApply (fitScaler Xtr))) ytr).2 ∧
    (trainCore fitScaler fitIso gen Xtr Xte ytr yte).xgbFitLabels.count true =
      ytr.count false ∧
    (trainCore fitScaler fitIso gen Xtr Xte ytr yte).xgbFitLabels.count false =
      ytr.count false := by
  have hlab : ∀ (g : ℕ → List α) (X : List (List α)),
      ((smoteResample g X ytr).2.count true = ytr.count false ∧
       (smoteResample g X ytr).2.count false = ytr.count false) := by
    intro g X
    unfold smoteResample
    rcases lt_or_ge (ytr.count true) (ytr.count false) with hlt | hge
    · simp only [hlt, if_true]
      constructor <;> simp [List.count_append, List.count_replicate] <;> omega
    · have heq : ytr.count true = ytr.count false := le_antisymm h hge
      simp [Nat.not_lt_of_ge hge, heq]
  rcases hsm : smoteResample gen (Xtr.map (scalerApply (fitScaler Xtr))) ytr
    with ⟨Xbal, ybal⟩
  have := hlab gen (Xtr.map (scalerApply (fitScaler Xtr)))
  rw [hsm] at this
  refine ⟨rfl, by simp [trainCore], ?_, ?_, ?_, ?_⟩ <;>
    simp only [trainCore, hsm] <;> simp [this.1, this.2]

/-- Training-fixture scaler-fit oracle. -/
def fs0 : List (List ℚ) → ScalerState ℚ := fun _ => ⟨[0], [1]⟩

/-- Training-fixture isolation-forest-fit oracle. -/
def fi0 : List (List ℚ) → (List ℚ → ℚ) := fun _ _ => 0

/-- Training-fixture SMOTE synthetic-row generator. -/
def g0 : ℕ → List ℚ := fun _ => [0]

/-- Training-fixture splits: one fraud among three training rows. -/
def Xtr0 : List (List ℚ) := [[1], [2], [3]]

/-- Training-fixture evaluation rows. -/
def Xte0 : List (List ℚ) := [[4]]

/-- Training-fixture training labels (fraud is the minority). -/
def ytr0 : List Bool := [true, false, false]

/-- Training-fixture evaluation labels. -/
def yte0 : List Bool := [false]

/-- C5 witness: the theorem instantiated on the concrete training fixture. -/
theorem train_smote_only_training_split_witness :
    ytr0.count true ≤ ytr0.count false ∧
    ((trainCore fs0 fi0 g0 Xtr0 Xte0 ytr0 yte0).evalLabels = yte0 ∧
     (trainCore fs0 fi0 g0 Xtr0 Xte0 ytr0 yte0).evalRows.length = Xte0.length ∧
     (trainCore fs0 fi0 g0 Xtr0 Xte0 ytr0 yte0).xgbFitRows =
       (smoteResample g0 (Xtr0.map (scalerApply (fs0 Xtr0))) ytr0).1 ∧
     (trainCore fs0 fi0 g0 Xtr0 Xte0 ytr0 yte0).xgbFitLabels =
       (smoteResample g0 (Xtr0.map (scalerApply (fs0 Xtr0))) ytr0).2 ∧
     (trainCore fs0 fi0 g0 Xtr0 Xte0 ytr0 yte0).xgbFitLabels.count true =
       ytr0.count false ∧
     (trainCore fs0 fi0 g0 Xtr0 Xte0 ytr0 yte0).xgbFitLabels.count false =
       ytr0.count false) :=
  ⟨by decide,
   train_smote_only_training_split fs0 fi0 g0 Xtr0 Xte0 ytr0 yte0 (by decide)⟩

/-- C6: `predict` on a detector that has neither been trained nor loaded
never returns a result, and — whenever the record itself is well-formed
enough for preprocessing to succeed — the raised error is the unfitted
(uninitialized-model) error from the scaler, `sklearn`'s `NotFittedError`. -/
theorem predict_unfitted_never_returns (P : Prims ℚ) (t : Txn ℚ) :
    (∀ r, (predict P mkFraudDetector t).1 ≠ Except.ok r) ∧
    (exceptOk (preprocess P [] t).1 = true →
      (predict P mkFraudDetector t).1 =
        Except.error (PyErr.notFitted "StandardScaler")) := by
  rcases hp : preprocess P [] t with ⟨res, encs⟩
  constructor
  · intro r
    rcases res with e | X <;> simp [predict, mkFraudDetector, hp]
  · intro hok
    rcases res with e | X
    · simp [exceptOk] at hok
    · simp [predict, mkFraudDetector, hp]

/-- C6 witness: a fresh detector on a fully populated record. -/
theorem predict_unfitted_never_returns_witness :
    exceptOk (preprocess P0 [] baseTxn).1 = true ∧
    (predict P0 mkFraudDetector baseTxn).1 =
      Except.error (PyErr.notFitted "StandardScaler") :=
  ⟨by decide, (predict_unfitted_never_returns P0 baseTxn).2 (by decide)⟩

/-- C7: the persistence round-trip restores every saved fitted field —
loading the artifact written by `save_model` yields a detector whose label
encoders, scaler, learners, metrics and feature importances are exactly
those that were saved, with no field lost or altered, whatever state the
loading detector had before. -/
theorem save_load_round_trip {α : Type} [LinearOrderedField α]
    (d d0 : Detector α) : load_model d0 (save_model d) = some d := rfl

/-- C8: at the failing input (the empty transaction list), `/batch-predict`
does not return the empty result list — after its (empty) prediction loop it
divides by `len(transactions) = 0` while building the response and raises
`ZeroDivisionError`, so the endpoint answers HTTP 500. -/
theorem batch_predict_empty_zero_division (P : Prims ℚ) (d : Detector ℚ) :
    batch_predict P d [] = (Except.error PyErr.zeroDivision, d) := rfl

/-- C9 counterexample: on a detector whose encoder table does not yet cover
a categorical feature of the record, `predict` mutates the fitted state —
`preprocess_data` fits a new encoder on the serve record even though the
call fails afterwards, so the claim that fitted state is unchanged after
every `predict` is false. -/
theorem predict_mutates_encoders_cex :
    (predict P0 mkFraudDetector baseTxn).2.label_encoders ≠
      (mkFraudDetector (α := ℚ)).label_encoders := by decide

/-- C9 amended: `predict` leaves the detector unchanged whenever every
categorical feature present in the record already has a fitted encoder (in
particular after a training run, which fits all encoders); the scaler,
classifier and anomaly scorer are unchanged by every `predict`
unconditionally — only `label_encoders` can be mutated, and only by fitting
an encoder that was missing. -/
theorem predict_frame_on_fitted_state (P : Prims ℚ) (d : Detector ℚ) (t : Txn ℚ)
    (h : ∀ f ∈ CATEGORICAL_FEATURES,
      (assocFind f t).isSome → (assocFind f d.label_encoders).isSome) :
    (predict P d t).2 = d ∧
    ∀ t2 : Txn ℚ,
      (predict P d t2).2.scaler = d.scaler ∧
      (predict P d t2).2.xgb_model = d.xgb_model ∧
      (predict P d t2).2.isolation_forest = d.isolation_forest := by
  constructor
  · rw [predict_snd, preprocess_snd_of_covered P d.label_encoders t h]
  · intro t2
    rw [predict_snd]
    exact ⟨rfl, rfl, rfl⟩

/-- C9 amended witness: the fitted detector's encoders cover `baseTxn`, and
`predict` leaves it untouched. -/
theorem predict_frame_on_fitted_state_witness :
    (predict P0 fittedDetector baseTxn).2 = fittedDetector :=
  (predict_frame_on_fitted_state P0 fittedDetector baseTxn (by decide)).1

/-- C10: a record without a `timestamp` key makes `predict` fail with
`KeyError('timestamp')` during preprocessing, before any scoring and
whatever the detector's state (which is left unchanged) — even though
`timestamp` is not among the model's feature columns; the API layer
therefore injects a timestamp into every record before calling `predict`. -/
theorem predict_requires_timestamp (P : Prims ℚ) (d : Detector ℚ) (t : Txn ℚ)
    (h : assocFind "timestamp" t = none) :
    (predict P d t).1 = Except.error (PyErr.keyError "timestamp") ∧
    (predict P d t).2 = d ∧
    "timestamp" ∉ featureColumns ∧
    assocFind "timestamp" (stampTimestamp t) = some Val.time := by
  have hdc : derivedColumns P t = Except.error (PyErr.keyError "timestamp") := by
    unfold derivedColumns
    rw [h]
    rfl
  have hpre : preprocess P d.label_encoders t =
      (Except.error (PyErr.keyError "timestamp"), d.label_encoders) := by
    unfold preprocess
    rw [hdc]
  refine ⟨?_, ?_, by decide, rfl⟩
  · simp [predict, hpre]
  · simp [predict, hpre]

/-- C10 witness: the empty record lacks `timestamp`. -/
theorem predict_requires_timestamp_witness :
    (predict P0 mkFraudDetector ([] : Txn ℚ)).1 =
      Except.error (PyErr.keyError "timestamp") :=
  (predict_requires_timestamp P0 mkFraudDetector [] rfl).1

end FraudGuard
